import Mathlib

/-!
Verification of the retrying command-execution core and of the
secret-update driver of aws-secrets-github-sync.

The development has three parts.

Part 1 embeds src/clients.ts as present under src/ in the repository
snapshot: the spawnSync result record, assertSuccess, the gh invocations
of storeSecret / listSecrets / removeSecret / getRepositoryName (argument
vectors, piped input and stdio dispositions), the default retry options,
and the executeWithRetry loop (attempt-counter bounded when no deadline is
supplied, deadline bounded otherwise, deterministic exponential backoff).

Part 2 models the throttle-classifying retry orchestrator that the design
specification describes and that the test-suite of the repository
exercises through spawnWithRetry; the implementation of that orchestrator
is not part of the snapshot under src/ (only its tests are), so the
definitions in that part are written from the words of the specification
and carry a doc comment starting with: Modelled from the spec.

Part 3 embeds updateSecrets from src/update-secrets.ts as a pure function
from the injected client answers to the list of mutating actions
(storeSecret / removeSecret calls) it performs, or the error it throws.

Time is modelled in milliseconds as natural numbers; the wall clock
advances by an environment-supplied duration for each command invocation
and by the exact backoff wait between invocations.  The retry loops are
written with explicit fuel because, for adversarial environments, they
need not terminate; the theorems either hold for every fuel or are stated
for runs that did return a result.
-/

/-! ### Part 1: embedding of src/clients.ts -/

/-- Result record of a child_process.spawnSync call, as consumed by
clients.ts: the transport error (set when the process could not be
started), the terminating signal, the exit status (absent when the process
was killed by a signal), and the captured output streams. -/
structure SpawnResult where
  error : Option String
  signal : Option String
  status : Option Int
  stdout : String
  stderr : String
deriving Repr, DecidableEq

/-- Embedding of assertSuccess (src/clients.ts lines 243-254): throw the
transport error if present, then an error for a signal termination, then
an error for a non-null positive exit status; otherwise return the result
record unchanged.  The captured stderr text is never inspected. -/
def assertSuccess (x : SpawnResult) : Except String SpawnResult :=
  match x.error with
  | some e => .error e
  | none =>
    match x.signal with
    | some s => .error ("Process exited with signal " ++ s)
    | none =>
      match x.status with
      | some c => if 0 < c then .error ("Process exited with code " ++ toString c) else .ok x
      | none => .ok x

/-- Caller-supplied retry options (RetryOptions in src/clients.ts): every
field optional. -/
structure RetryOptions where
  maxRetries : Option Nat := none
  initialBackoff : Option Nat := none
  maxBackoff : Option Nat := none
  backoffFactor : Option Nat := none
  deadline : Option Nat := none
deriving Repr

/-- Resolved retry options, after defaults have been merged in
(src/clients.ts lines 142-148). -/
structure RetryOpts where
  maxRetries : Nat
  initialBackoff : Nat
  maxBackoff : Nat
  backoffFactor : Nat
  deadline : Option Nat
deriving Repr, DecidableEq

/-- Embedding of the option resolution at the top of executeWithRetry:
each absent field falls back to DEFAULT_RETRY_OPTIONS (src/clients.ts
lines 54-59: maxRetries 5, initialBackoff 60000 ms, maxBackoff 6000000 ms,
backoffFactor 3), and deadline stays as given (default undefined). -/
def resolveRetryOptions (o : RetryOptions) : RetryOpts where
  maxRetries := o.maxRetries.getD 5
  initialBackoff := o.initialBackoff.getD 60000
  maxBackoff := o.maxBackoff.getD 6000000
  backoffFactor := o.backoffFactor.getD 3
  deadline := o.deadline

/-- JavaScript truthiness of the deadline option as used in the two guards
of executeWithRetry: undefined and 0 are falsy. -/
def deadlineSet : Option Nat → Bool
  | some d => d != 0
  | none => false

/-- The deadline comparison of src/clients.ts line 164 on the elapsed time
since the first attempt. -/
def deadlineReached (d : Option Nat) (elapsed : Nat) : Bool :=
  match d with
  | some v => decide (v ≤ elapsed)
  | none => false

/-- The backoff computation of src/clients.ts lines 175-178 for the given
failure counter (1-based). -/
def backoffTime (opts : RetryOpts) (attempt : Nat) : Nat :=
  min (opts.initialBackoff * opts.backoffFactor ^ (attempt - 1)) opts.maxBackoff

/-- Environment of a retried command: the SpawnResult produced by the n-th
invocation (0-based) and the wall-clock milliseconds that invocation
consumed. -/
structure CommandEnv where
  run : Nat → SpawnResult
  runDur : Nat → Nat

/-- Observable trace of one executeWithRetry run: how many times the
command was invoked, the backoff waits that were inserted between
invocations (in order), and the final outcome. -/
structure ExecTrace where
  invocations : Nat
  waits : List Nat
  result : Except String SpawnResult
deriving Repr

/-- Embedding of the retry loop of executeWithRetry (src/clients.ts lines
150-192).  Here attempt counts previous failures (and equals the index of
the invocation executed in this iteration), elapsed is the time since the
fixed start, waits accumulates the backoff waits in reverse.  Fuel bounds
the number of iterations; none means the loop was still running when the
fuel ran out. -/
def executeWithRetryAux (opts : RetryOpts) (env : CommandEnv) :
    Nat → Nat → Nat → List Nat → Option ExecTrace
  | 0, _, _, _ => none
  | fuel+1, attempt, elapsed, waits =>
    match assertSuccess (env.run attempt) with
    | .ok res => some { invocations := attempt + 1, waits := waits.reverse, result := .ok res }
    | .error e =>
      let elapsed1 := elapsed + env.runDur attempt
      if deadlineSet opts.deadline && deadlineReached opts.deadline elapsed1 then
        some { invocations := attempt + 1, waits := waits.reverse, result := .error e }
      else if !deadlineSet opts.deadline && decide (opts.maxRetries < attempt + 1) then
        some { invocations := attempt + 1, waits := waits.reverse, result := .error e }
      else
        let bt := backoffTime opts (attempt + 1)
        executeWithRetryAux opts env fuel (attempt + 1) (elapsed1 + bt) (bt :: waits)

/-- Embedding of executeWithRetry (src/clients.ts lines 138-193): run the
loop from a fresh attempt counter and start time. -/
def executeWithRetry (opts : RetryOpts) (env : CommandEnv) (fuel : Nat) : Option ExecTrace :=
  executeWithRetryAux opts env fuel 0 0 []

/-- Stream disposition values accepted by the stdio option of spawnSync. -/
inductive StdioDisposition
  | pipe
  | inherit
  | ignore
deriving Repr, DecidableEq

/-- A spawnSync call as issued by clients.ts: command, argument vector,
optional text written to the stdin of the child, and the stdio triple
(stdin, stdout, stderr). -/
structure SpawnCall where
  cmd : String
  args : List String
  input : Option String
  stdin : StdioDisposition
  stdout : StdioDisposition
  stderr : StdioDisposition
deriving Repr, DecidableEq

/-- The gh secret set invocation of storeSecret (src/clients.ts lines
111-114): secret value piped to stdin, stdio pipe/inherit/inherit. -/
def storeSecretCall (repository name value : String) : SpawnCall :=
  { cmd := "gh", args := ["secret", "set", "--repo", repository, name],
    input := some value, stdin := .pipe, stdout := .inherit, stderr := .inherit }

/-- The gh secret list invocation of listSecrets (src/clients.ts lines
116-118): no input, stdio ignore/pipe/inherit. -/
def listSecretsCall (repository : String) : SpawnCall :=
  { cmd := "gh", args := ["secret", "list", "--repo", repository],
    input := none, stdin := .ignore, stdout := .pipe, stderr := .inherit }

/-- The gh secret remove invocation of removeSecret (src/clients.ts lines
126-129): no input, stdio ignore/inherit/inherit. -/
def removeSecretCall (repository key : String) : SpawnCall :=
  { cmd := "gh", args := ["secret", "remove", "--repo", repository, key],
    input := none, stdin := .ignore, stdout := .inherit, stderr := .inherit }

/-- The gh repo view invocation of getRepositoryName (src/clients.ts line
100): no input, stdio ignore/pipe/inherit. -/
def getRepositoryNameCall : SpawnCall :=
  { cmd := "gh", args := ["repo", "view", "--json", "nameWithOwner"],
    input := none, stdin := .ignore, stdout := .pipe, stderr := .inherit }

/-! ### Part 2: the throttle-classifying orchestrator, modelled from the spec -/

/-- Substring containment on strings, for the throttling-signature test
(the captured error-stream text contains the literal substring). -/
def strContains (hay needle : String) : Bool :=
  hay.data.tails.any fun suf => needle.data.isPrefixOf suf

/-- Modelled from the spec: the throttling signature string, a fixed
substring found in the captured diagnostic text of a failing command that
indicates a secondary rate-limit rejection by the remote service.  The
specification fixes the literal contractually without spelling it; the
tests of the repository treat stderr text containing the phrase rate limit
(as in API rate limit exceeded) as retryable and the text Some other error
as fatal, so that substring is used here. -/
def throttlingSignature : String := "rate limit"

/-- Modelled from the spec: outcome of one attempt as seen by the Retry
Orchestrator, either a transport failure (the process could not be started
or was killed by a signal) or an exit with status and captured streams. -/
inductive AttemptOutcome
  | transport (msg : String)
  | exited (status : Int) (stdout stderr : String)
deriving Repr, DecidableEq

/-- Classification of an attempt: success, retryable throttle, or fatal. -/
inductive Classified
  | success (stdout stderr : String)
  | retryable (msg : String)
  | fatal (msg : String)
deriving Repr, DecidableEq

/-- Modelled from the spec: the classification rule — a zero exit is
success even if the error stream is non-empty; a non-zero exit is
retryable iff the captured error text contains the throttling signature;
any other non-zero exit or transport-level failure is fatal. -/
def classify : AttemptOutcome → Classified
  | .transport m => .fatal m
  | .exited st out err =>
    if st = 0 then .success out err
    else if strContains err throttlingSignature then .retryable err
    else .fatal err

/-- Recogniser of the retryable classification. -/
def isRetryable : Classified → Bool
  | .retryable _ => true
  | _ => false

/-- Modelled from the spec: a sample of the uniform randomness source in
the interval from 0 inclusive to 1 exclusive, represented as the fraction
num over den with num strictly below den. -/
structure RandSample where
  num : Nat
  den : Nat
deriving Repr, DecidableEq

/-- Modelled from the spec: the jitter computation, a duration in the
half-open interval from 0 to currentBackoff obtained from a uniform
sample. -/
def jitterWait (u : RandSample) (cb : Nat) : Nat :=
  u.num * cb / u.den

/-- Modelled from the spec: the RetryPolicy record. -/
structure RetryPolicy where
  initialBackoff : Nat
  maxBackoff : Nat
  backoffFactor : Nat
  deadline : Nat
deriving Repr, DecidableEq

/-- The policy invariant stated by the specification. -/
def RetryPolicy.WellFormed (p : RetryPolicy) : Prop :=
  0 < p.initialBackoff ∧ 1 ≤ p.backoffFactor ∧ p.initialBackoff ≤ p.maxBackoff ∧ 0 < p.deadline

/-- Environment of an orchestrated operation: outcome and duration of the
n-th attempt and the jitter sample for the n-th backoff round. -/
structure RetryEnv where
  attemptOutcome : Nat → AttemptOutcome
  attemptDur : Nat → Nat
  rand : Nat → RandSample

/-- Terminal states of the orchestrator. -/
inductive RetryOutcome
  | succeeded (stdout stderr : String)
  | failedFatal (msg : String)
  | failedDeadline (msg : String)
deriving Repr, DecidableEq

/-- Recogniser of the FailedDeadline terminal state. -/
def isDeadlineOutcome : RetryOutcome → Bool
  | .failedDeadline _ => true
  | _ => false

/-- Observable trace of one orchestrated run: number of invocations, the
inserted waits paired with the currentBackoff value that bounded each of
them, the elapsed time when the loop ended, and the terminal state. -/
structure RetryTrace where
  invocations : Nat
  waits : List (Nat × Nat)
  finalElapsed : Nat
  outcome : RetryOutcome
deriving Repr, DecidableEq

/-- Modelled from the spec: the retry loop of the orchestrator.  A zero
exit succeeds; a fatal classification propagates immediately; a retryable
classification retries while the elapsed time is still before the deadline
fixed at loop entry, suspending for the jitter wait and growing the
current backoff multiplicatively with a clamp at maxBackoff, and otherwise
terminates in the FailedDeadline state with the latest error.  Fuel bounds
the number of iterations; none means the loop was still running when the
fuel ran out. -/
def orchestrateAux (p : RetryPolicy) (env : RetryEnv) :
    Nat → Nat → Nat → Nat → List (Nat × Nat) → Option RetryTrace
  | 0, _, _, _, _ => none
  | fuel+1, n, elapsed, cb, waits =>
    let elapsed1 := elapsed + env.attemptDur n
    match classify (env.attemptOutcome n) with
    | .success out err =>
      some { invocations := n + 1, waits := waits.reverse, finalElapsed := elapsed1,
             outcome := .succeeded out err }
    | .fatal m =>
      some { invocations := n + 1, waits := waits.reverse, finalElapsed := elapsed1,
             outcome := .failedFatal m }
    | .retryable m =>
      if elapsed1 < p.deadline then
        let w := jitterWait (env.rand n) cb
        orchestrateAux p env fuel (n + 1) (elapsed1 + w)
          (min (cb * p.backoffFactor) p.maxBackoff) ((w, cb) :: waits)
      else
        some { invocations := n + 1, waits := waits.reverse, finalElapsed := elapsed1,
               outcome := .failedDeadline m }

/-- Modelled from the spec: run the orchestrator from a fresh attempt
counter, a zero elapsed clock and the initial backoff. -/
def orchestrate (p : RetryPolicy) (env : RetryEnv) (fuel : Nat) : Option RetryTrace :=
  orchestrateAux p env fuel 0 0 p.initialBackoff []

/-- Modelled from the spec: the stream configuration of the Process
Invoker — stdout and stderr are both captured as text (piped), and stdin
is a writable pipe when a payload is supplied, closed/ignored otherwise. -/
def invokerConfig (cmd : String) (args : List String) (input : Option String) : SpawnCall :=
  { cmd := cmd, args := args, input := input,
    stdin := if input.isSome then .pipe else .ignore,
    stdout := .pipe, stderr := .pipe }

/-- Modelled from the spec: the gh secret set invocation of storeSecret in
the classifying client layer, issued through the Process Invoker with the
secret value as payload. -/
def storeSecretSpawn (repository name value : String) : SpawnCall :=
  invokerConfig "gh" ["secret", "set", "--repo", repository, name] (some value)

/-- Modelled from the spec: the gh secret list invocation of listSecrets
in the classifying client layer, no payload. -/
def listSecretsSpawn (repository : String) : SpawnCall :=
  invokerConfig "gh" ["secret", "list", "--repo", repository] none

/-- Modelled from the spec: the gh secret remove invocation of
removeSecret in the classifying client layer, no payload. -/
def removeSecretSpawn (repository key : String) : SpawnCall :=
  invokerConfig "gh" ["secret", "remove", "--repo", repository, key] none

/-- Modelled from the spec: the gh repo view invocation of
getRepositoryName in the classifying client layer, no payload. -/
def getRepositoryNameSpawn : SpawnCall :=
  invokerConfig "gh" ["repo", "view", "--json", "nameWithOwner"] none

/-! ### Part 3: embedding of src/update-secrets.ts -/

/-- JSON value stored in the fetched secret: either an object (association
list of key/value entries in insertion order) or a non-object value. -/
inductive SecretJson
  | obj (entries : List (String × String))
  | nonObject (txt : String)
deriving Repr, DecidableEq

/-- The fetched secret (Secret in src/clients.ts): its ARN and JSON body. -/
structure SecretData where
  arn : String
  json : SecretJson
deriving Repr, DecidableEq

/-- Options of updateSecrets (UpdateSecretsOptions in
src/update-secrets.ts), with the injected clients replaced by an
UpdateEnv. -/
structure UpdateOptions where
  secret : String
  region : Option String := none
  profile : Option String := none
  repository : Option String := none
  keys : Option (List String) := none
  allKeys : Option Bool := none
  confirm : Option Bool := none
  prune : Option Bool := none
deriving Repr

/-- Answers of the injected clients as updateSecrets consumes them: the
current repository name, the fetched secret, the existing secret names of
the repository, and the confirmation-prompt answer. -/
structure UpdateEnv where
  repoName : String
  secret : SecretData
  existingKeys : List String
  confirmAnswer : Bool
deriving Repr, DecidableEq

/-- A mutating client call performed by updateSecrets. -/
inductive ClientAction
  | store (repository key value : String)
  | remove (repository key : String)
deriving Repr, DecidableEq

/-- JavaScript truthiness of an optional boolean (undefined and false are
falsy). -/
def jsTruthy : Option Bool → Bool
  | some b => b
  | none => false

/-- Key membership in the secret object (the JavaScript in operator on the
JSON body). -/
def hasKey (entries : List (String × String)) (k : String) : Bool :=
  entries.any fun e => e.1 == k

/-- The effective key list after the allKeys handling of
src/update-secrets.ts lines 91-98: with truthy allKeys the keys of the
object are appended to the (necessarily empty) caller list. -/
def effectiveKeys (o : UpdateOptions) (entries : List (String × String)) : List String :=
  if jsTruthy o.allKeys then o.keys.getD [] ++ entries.map Prod.fst else o.keys.getD []

/-- Embedding of updateSecrets (src/update-secrets.ts lines 68-150) as a
pure function: performs the validations in source order and returns either
the thrown error text or the list of storeSecret/removeSecret calls made;
an unconfirmed run returns the empty list, mirroring the early return at
line 133. -/
def updateSecrets (o : UpdateOptions) (env : UpdateEnv) : Except String (List ClientAction) :=
  let secretId := o.secret
  let repository := o.repository.getD env.repoName
  let secret := env.secret
  let prune := o.prune.getD false
  match secret.json with
  | .nonObject _ => .error ("Secret \"" ++ secret.arn ++ "\" is not an object")
  | .obj entries =>
    if o.allKeys.isNone && o.keys.isNone then
      .error "Either `all` or `keys` must be set"
    else if jsTruthy o.allKeys && decide (0 < (o.keys.getD []).length) then
      .error "Cannot set both `all` and `keys`"
    else
      let keys := effectiveKeys o entries
      if keys.length = 0 then
        .error "No keys to update"
      else
        match keys.find? (fun k => !hasKey entries k) with
        | some missing =>
          .error ("Secret \"" ++ secretId ++ "\" does not contain key \"" ++ missing ++ "\"")
        | none =>
          let oldKeys := env.existingKeys.filter fun k => !keys.contains k
          if (o.confirm.getD true) && !env.confirmAnswer then
            .ok []
          else
            let stores := (entries.filter fun e =>
              !(decide (0 < keys.length) && !keys.contains e.1)).map
              fun e => ClientAction.store repository e.1 e.2
            let removes := if prune then oldKeys.map (fun k => ClientAction.remove repository k) else []
            .ok (stores ++ removes)

/-- True when a result of updateSecrets performed no mutating client
call. -/
def noMutation : Except String (List ClientAction) → Bool
  | .error _ => true
  | .ok acts => acts.isEmpty

/-! ### Concrete sample environments, used by the witnesses -/

/-- A command environment whose every invocation succeeds with exit status
zero. -/
def okSpawnEnv : CommandEnv where
  run := fun _ => { error := none, signal := none, status := some 0,
                    stdout := "Success", stderr := "" }
  runDur := fun _ => 5

/-- A command environment whose every invocation exits 1 with the
throttling signature in its captured stderr. -/
def throttleSpawnEnv : CommandEnv where
  run := fun _ => { error := none, signal := none, status := some 1,
                    stdout := "", stderr := "gh: API rate limit exceeded" }
  runDur := fun _ => 1000

/-- A sample policy with the reference deadline of two hours. -/
def specPolicy : RetryPolicy where
  initialBackoff := 60000
  maxBackoff := 6000000
  backoffFactor := 3
  deadline := 7200000

/-- An orchestrator environment whose every attempt fails with an error
text that lacks the throttling signature. -/
def fatalEnv : RetryEnv where
  attemptOutcome := fun _ => .exited 1 "" "Some other error"
  attemptDur := fun _ => 7
  rand := fun _ => { num := 0, den := 1 }

/-- An orchestrator environment that throttles forever while consuming no
time at all: zero attempt durations and a zero jitter sample. -/
def throttleZeroEnv : RetryEnv where
  attemptOutcome := fun _ => .exited 1 "" "gh: API rate limit exceeded"
  attemptDur := fun _ => 0
  rand := fun _ => { num := 0, den := 1 }

/-- An orchestrator environment that throttles forever, each attempt
taking 60 ms, with jitter sample one third. -/
def slowThrottleEnv : RetryEnv where
  attemptOutcome := fun _ => .exited 1 "" "gh: API rate limit exceeded"
  attemptDur := fun _ => 60
  rand := fun _ => { num := 1, den := 3 }

/-- A policy whose deadline is shorter than a single attempt of
slowThrottleEnv. -/
def shortDeadlinePolicy : RetryPolicy where
  initialBackoff := 100
  maxBackoff := 1000
  backoffFactor := 2
  deadline := 50

/-- A policy that allows exactly one backoff round of slowThrottleEnv
before the deadline passes. -/
def jitterPolicy : RetryPolicy where
  initialBackoff := 100
  maxBackoff := 1000
  backoffFactor := 2
  deadline := 150

/-- Update options asking for a key the sample secret does not hold. -/
def missingKeyOptions : UpdateOptions where
  secret := "my-secret-name"
  keys := some ["NPM_TOKEN", "NOT_FOUND"]

/-- A sample update environment with a one-entry secret object. -/
def sampleUpdateEnv : UpdateEnv where
  repoName := "my-owner/my-repo"
  secret := { arn := "secret-arn", json := .obj [("NPM_TOKEN", "my-npm-token")] }
  existingKeys := ["OLD_SECRET"]
  confirmAnswer := true

/-! ### Helper lemmas -/

/-- One unfolding step of the executeWithRetry loop. -/
theorem executeWithRetryAux_succ (opts : RetryOpts) (env : CommandEnv)
    (fuel attempt elapsed : Nat) (waits : List Nat) :
    executeWithRetryAux opts env (fuel+1) attempt elapsed waits =
      (match assertSuccess (env.run attempt) with
       | .ok res => some { invocations := attempt + 1, waits := waits.reverse, result := .ok res }
       | .error e =>
         let elapsed1 := elapsed + env.runDur attempt
         if deadlineSet opts.deadline && deadlineReached opts.deadline elapsed1 then
           some { invocations := attempt + 1, waits := waits.reverse, result := .error e }
         else if !deadlineSet opts.deadline && decide (opts.maxRetries < attempt + 1) then
           some { invocations := attempt + 1, waits := waits.reverse, result := .error e }
         else
           let bt := backoffTime opts (attempt + 1)
           executeWithRetryAux opts env fuel (attempt + 1) (elapsed1 + bt) (bt :: waits)) := rfl

/-- One unfolding step of the orchestrator loop. -/
theorem orchestrateAux_succ (p : RetryPolicy) (env : RetryEnv)
    (fuel n elapsed cb : Nat) (waits : List (Nat × Nat)) :
    orchestrateAux p env (fuel+1) n elapsed cb waits =
      (let elapsed1 := elapsed + env.attemptDur n
       match classify (env.attemptOutcome n) with
       | .success out err =>
         some { invocations := n + 1, waits := waits.reverse, finalElapsed := elapsed1,
                outcome := .succeeded out err }
       | .fatal m =>
         some { invocations := n + 1, waits := waits.reverse, finalElapsed := elapsed1,
                outcome := .failedFatal m }
       | .retryable m =>
         if elapsed1 < p.deadline then
           let w := jitterWait (env.rand n) cb
           orchestrateAux p env fuel (n + 1) (elapsed1 + w)
             (min (cb * p.backoffFactor) p.maxBackoff) ((w, cb) :: waits)
         else
           some { invocations := n + 1, waits := waits.reverse, finalElapsed := elapsed1,
                  outcome := .failedDeadline m }) := rfl

/-- A result with no transport error, no signal and exit status zero
passes assertSuccess unchanged. -/
theorem assertSuccess_ok (x : SpawnResult) (h1 : x.error = none) (h2 : x.signal = none)
    (h3 : x.status = some 0) : assertSuccess x = .ok x := by
  unfold assertSuccess
  rw [h1, h2, h3]
  simp

/-- A result with no transport error, no signal and exit status one fails
assertSuccess with the exit-code message. -/
theorem assertSuccess_exit_one (x : SpawnResult) (h1 : x.error = none) (h2 : x.signal = none)
    (h3 : x.status = some 1) : assertSuccess x = .error "Process exited with code 1" := by
  unfold assertSuccess
  rw [h1, h2, h3]
  rfl

/-! ### Claim theorems -/

/-- C5: when the first invocation has no transport error, no signal and
exit status zero, executeWithRetry invokes the command exactly once,
returns that SpawnResult unchanged, and inserts no backoff wait, whatever
the retry options and the remaining fuel. -/
theorem firstAttemptSuccess_no_retry (opts : RetryOpts) (env : CommandEnv) (k : Nat)
    (h1 : (env.run 0).error = none) (h2 : (env.run 0).signal = none)
    (h3 : (env.run 0).status = some 0) :
    executeWithRetry opts env (k+1) =
      some { invocations := 1, waits := [], result := .ok (env.run 0) } := by
  have hok := assertSuccess_ok (env.run 0) h1 h2 h3
  simp [executeWithRetry, executeWithRetryAux, hok]

/-- Witness for the first-attempt-success theorem, at a concrete command
environment. -/
theorem firstAttemptSuccess_no_retry_witness :
    executeWithRetry (resolveRetryOptions {}) okSpawnEnv 3 =
      some { invocations := 1, waits := [],
             result := .ok { error := none, signal := none, status := some 0,
                             stdout := "Success", stderr := "" } } :=
  firstAttemptSuccess_no_retry (resolveRetryOptions {}) okSpawnEnv 2 rfl rfl rfl

/-- C9: storeSecret pipes its payload to the stdin of the child (pipe with
the secret value as input) while listSecrets, removeSecret and
getRepositoryName, which pass no payload, configure the stdin of the child
as ignore (closed immediately) — a property of the stdio configuration
passed to spawnSync. -/
theorem stdin_disposition_matches_payload (repository name value key : String) :
    (storeSecretCall repository name value).input = some value ∧
    (storeSecretCall repository name value).stdin = .pipe ∧
    (listSecretsCall repository).input = none ∧
    (listSecretsCall repository).stdin = .ignore ∧
    (removeSecretCall repository key).input = none ∧
    (removeSecretCall repository key).stdin = .ignore ∧
    getRepositoryNameCall.input = none ∧
    getRepositoryNameCall.stdin = .ignore :=
  ⟨rfl, rfl, rfl, rfl, rfl, rfl, rfl, rfl⟩

/-- C7: in the classifying client layer, every gh invocation issued by
storeSecret, listSecrets, removeSecret and getRepositoryName captures the
standard error of the child as a pipe back to the parent — so the
classification of the retry layer can inspect its content — and never
inherits it; this is forced by the Process Invoker configuration, which
pipes stderr for every command. -/
theorem stderr_captured_for_classification (repository name value key : String) :
    (storeSecretSpawn repository name value).stderr = .pipe ∧
    (listSecretsSpawn repository).stderr = .pipe ∧
    (removeSecretSpawn repository key).stderr = .pipe ∧
    getRepositoryNameSpawn.stderr = .pipe ∧
    (∀ cmd args input, (invokerConfig cmd args input).stderr = .pipe) :=
  ⟨rfl, rfl, rfl, rfl, fun _ _ _ => rfl⟩

/-- C1: a transport failure, a signal termination, and a non-zero exit
whose captured stderr lacks the throttling signature all classify as
fatal; and a first attempt that classifies as fatal makes the orchestrator
invoke the command exactly once, insert no backoff wait, and propagate
that error unchanged — for every policy (whatever its deadline and budget)
and every fuel. -/
theorem fatal_failure_not_retried :
    (∀ msg, classify (.transport msg) = .fatal msg) ∧
    (∀ st out err, st ≠ 0 → strContains err throttlingSignature = false →
      classify (.exited st out err) = .fatal err) ∧
    (∀ (p : RetryPolicy) (env : RetryEnv) (k : Nat) (m : String),
      classify (env.attemptOutcome 0) = .fatal m →
      orchestrate p env (k+1) =
        some { invocations := 1, waits := [], finalElapsed := env.attemptDur 0,
               outcome := .failedFatal m }) := by
  refine ⟨fun msg => rfl, ?_, ?_⟩
  · intro st out err h1 h2
    simp [classify, h1, h2]
  · intro p env k m hfatal
    simp [orchestrate, orchestrateAux, hfatal]

/-- Witness for the fatal-failure theorem: a non-throttle exit stops the
orchestrator after one invocation, with over an hour of deadline left. -/
theorem fatal_failure_not_retried_witness :
    orchestrate specPolicy fatalEnv 3 =
      some { invocations := 1, waits := [], finalElapsed := 7,
             outcome := .failedFatal "Some other error" } :=
  fatal_failure_not_retried.2.2 specPolicy fatalEnv 2 "Some other error" rfl

/-- C6: for a policy with initialBackoff 100, backoffFactor 2 and
maxBackoff 1000, the backoff value the loop computes for the n-th wait
equals min(100 * 2 ^ (n - 1), 1000): 100 for the first wait, 200 for the
second, doubling each round, monotone non-decreasing, and clamped to 1000
from the fifth wait on. -/
theorem backoff_growth_clamped (opts : RetryOpts)
    (hinit : opts.initialBackoff = 100) (hfac : opts.backoffFactor = 2)
    (hmax : opts.maxBackoff = 1000) :
    (∀ n, backoffTime opts (n+1) = min (100 * 2 ^ n) 1000) ∧
    backoffTime opts 1 = 100 ∧ backoffTime opts 2 = 200 ∧
    backoffTime opts 3 = 400 ∧ backoffTime opts 4 = 800 ∧
    (∀ n, backoffTime opts (n+1) ≤ backoffTime opts (n+2)) ∧
    (∀ n, 4 ≤ n → backoffTime opts (n+1) = 1000) := by
  have hform : ∀ n, backoffTime opts (n+1) = min (100 * 2 ^ n) 1000 := by
    intro n
    simp [backoffTime, hinit, hfac, hmax]
  refine ⟨hform, ?_, ?_, ?_, ?_, ?_, ?_⟩
  · rw [show (1 : Nat) = 0 + 1 from rfl, hform]; decide
  · rw [show (2 : Nat) = 1 + 1 from rfl, hform]; decide
  · rw [show (3 : Nat) = 2 + 1 from rfl, hform]; decide
  · rw [show (4 : Nat) = 3 + 1 from rfl, hform]; decide
  · intro n
    rw [hform n, show n + 2 = (n + 1) + 1 from rfl, hform (n+1)]
    refine min_le_min ?_ le_rfl
    exact Nat.mul_le_mul_left _ (Nat.pow_le_pow_right (by norm_num) (Nat.le_succ n))
  · intro n hn
    rw [hform n]
    refine min_eq_right ?_
    calc (1000 : Nat) ≤ 100 * 2 ^ 4 := by norm_num
    _ ≤ 100 * 2 ^ n := Nat.mul_le_mul_left _ (Nat.pow_le_pow_right (by norm_num) hn)

/-- Witness for the backoff-growth theorem at the concrete policy. -/
theorem backoff_growth_clamped_witness :
    backoffTime { maxRetries := 5, initialBackoff := 100, maxBackoff := 1000,
                  backoffFactor := 2, deadline := none } 2 = 200 :=
  (backoff_growth_clamped _ rfl rfl rfl).2.2.1

/-- C8: assertSuccess returns its argument unchanged whenever the argument
carries no transport error, no signal and exit status zero — in
particular a zero exit with a non-empty captured error stream is treated
as success — and it raises if and only if a transport error, a signal, or
a positive exit status is present. -/
theorem assertSuccess_iff_failure (x : SpawnResult) :
    (x.error = none → x.signal = none → x.status = some 0 → assertSuccess x = .ok x) ∧
    ((∃ e, assertSuccess x = .error e) ↔
      (x.error ≠ none ∨ x.signal ≠ none ∨ ∃ c, x.status = some c ∧ 0 < c)) := by
  obtain ⟨er, sg, st, out, err⟩ := x
  constructor
  · intro h1 h2 h3
    exact assertSuccess_ok _ h1 h2 h3
  · cases er with
    | some e => simp [assertSuccess]
    | none =>
      cases sg with
      | some s => simp [assertSuccess]
      | none =>
        cases st with
        | none => simp [assertSuccess]
        | some c =>
          by_cases hc : 0 < c
          · simp [assertSuccess, hc]
          · simp [assertSuccess, hc]

/-- Witness for the assertSuccess characterisation: a zero exit with
diagnostic noise on the captured error stream is success. -/
theorem assertSuccess_iff_failure_witness :
    assertSuccess { error := none, signal := none, status := some 0,
                    stdout := "", stderr := "warning: noise" } =
      .ok { error := none, signal := none, status := some 0,
            stdout := "", stderr := "warning: noise" } :=
  (assertSuccess_iff_failure _).1 rfl rfl rfl

/-- C4: under the resolved default retry options (maxRetries 5,
initialBackoff 60000 ms, backoffFactor 3, maxBackoff 6000000 ms, no
deadline), a command that on every attempt exits 1 with the throttling
signature in its captured stderr is invoked exactly 6 times, with backoff
waits of 60000, 180000, 540000, 1620000 and 4860000 ms — 7260000 ms in
total, on the order of two hours — before the last error is propagated. -/
theorem default_policy_throttle_exhaustion (env : CommandEnv) (k : Nat)
    (hfail : ∀ n, (env.run n).error = none ∧ (env.run n).signal = none ∧
      (env.run n).status = some 1 ∧ strContains (env.run n).stderr throttlingSignature = true) :
    executeWithRetry (resolveRetryOptions {}) env (k+6) =
      some { invocations := 6, waits := [60000, 180000, 540000, 1620000, 4860000],
             result := .error "Process exited with code 1" } ∧
    ([60000, 180000, 540000, 1620000, 4860000] : List Nat).sum = 7260000 := by
  have herr : ∀ n, assertSuccess (env.run n) = .error "Process exited with code 1" := by
    intro n
    obtain ⟨h1, h2, h3, _⟩ := hfail n
    exact assertSuccess_exit_one _ h1 h2 h3
  constructor
  · simp [executeWithRetry, executeWithRetryAux, herr, resolveRetryOptions, deadlineSet,
      backoffTime]
  · rfl

/-- Witness for the default-policy exhaustion theorem at a concrete
always-throttled command environment. -/
theorem default_policy_throttle_exhaustion_witness :
    executeWithRetry (resolveRetryOptions {}) throttleSpawnEnv 6 =
      some { invocations := 6, waits := [60000, 180000, 540000, 1620000, 4860000],
             result := .error "Process exited with code 1" } :=
  (default_policy_throttle_exhaustion throttleSpawnEnv 0
    (fun _ => ⟨rfl, rfl, rfl, rfl⟩)).1

/-- In a run of the orchestrator in which every attempt classifies as
retryable, any returned trace ends in the FailedDeadline state with the
elapsed time at or beyond the deadline. -/
theorem orchestrateAux_retryable_deadline (p : RetryPolicy) (env : RetryEnv)
    (hall : ∀ n, isRetryable (classify (env.attemptOutcome n)) = true) :
    ∀ (fuel n elapsed cb : Nat) (waits : List (Nat × Nat)) (tr : RetryTrace),
      orchestrateAux p env fuel n elapsed cb waits = some tr →
      isDeadlineOutcome tr.outcome = true ∧ p.deadline ≤ tr.finalElapsed := by
  intro fuel
  induction fuel with
  | zero =>
    intro n elapsed cb waits tr h
    exact absurd h (by simp [orchestrateAux])
  | succ fuel ih =>
    intro n elapsed cb waits tr h
    have hr := hall n
    rw [orchestrateAux_succ] at h
    cases hc : classify (env.attemptOutcome n) with
    | success out err => rw [hc] at hr; simp [isRetryable] at hr
    | fatal m => rw [hc] at hr; simp [isRetryable] at hr
    | retryable m =>
      rw [hc] at h
      simp only at h
      by_cases hd : elapsed + env.attemptDur n < p.deadline
      · rw [if_pos hd] at h
        exact ih _ _ _ _ _ h
      · rw [if_neg hd] at h
        cases h
        exact ⟨rfl, Nat.le_of_not_lt hd⟩

/-- Against the zero-time always-throttling environment, the orchestrator
never terminates, whatever the fuel: the attempt count is not a
termination condition. -/
theorem orchestrateAux_zero_time_never_stops (p : RetryPolicy) (hd : 0 < p.deadline) :
    ∀ (fuel n cb : Nat) (waits : List (Nat × Nat)),
      orchestrateAux p throttleZeroEnv fuel n 0 cb waits = none := by
  intro fuel
  induction fuel with
  | zero => intro n cb waits; rfl
  | succ fuel ih =>
    intro n cb waits
    have hc : classify (throttleZeroEnv.attemptOutcome n) =
        .retryable "gh: API rate limit exceeded" := rfl
    have hdur : throttleZeroEnv.attemptDur n = 0 := rfl
    have hrand0 : throttleZeroEnv.rand n = { num := 0, den := 1 } := rfl
    rw [orchestrateAux_succ]
    simp only [hc, hdur, hrand0, jitterWait, Nat.add_zero, Nat.zero_mul, Nat.zero_div]
    rw [if_pos hd]
    exact ih (n+1) _ _

/-- C2: a run of the throttle-classifying orchestrator in which every
attempt classifies as retryable can only terminate in the FailedDeadline
state, with the elapsed wall-clock time since the first attempt at or
beyond the policy deadline; and the number of attempts is not a
termination condition — for every policy with a positive deadline, the
environment that throttles forever while consuming no time keeps the loop
running however much fuel (however many attempts) it is given. -/
theorem deadline_not_attempts_bounds_loop :
    (∀ (p : RetryPolicy) (env : RetryEnv) (fuel : Nat) (tr : RetryTrace),
      (∀ n, isRetryable (classify (env.attemptOutcome n)) = true) →
      orchestrate p env fuel = some tr →
      isDeadlineOutcome tr.outcome = true ∧ p.deadline ≤ tr.finalElapsed) ∧
    (∀ (p : RetryPolicy) (fuel : Nat), 0 < p.deadline →
      orchestrate p throttleZeroEnv fuel = none) :=
  ⟨fun p env fuel tr hall h =>
    orchestrateAux_retryable_deadline p env hall fuel 0 0 p.initialBackoff [] tr h,
   fun p fuel hd => orchestrateAux_zero_time_never_stops p hd fuel 0 p.initialBackoff []⟩

/-- Witness for the deadline-bounds-the-loop theorem: a policy with a 50
ms deadline neither stops the zero-time throttler within 25 units of fuel,
nor ends a 60 ms-per-attempt throttled run in any state but
FailedDeadline, at or past the deadline. -/
theorem deadline_not_attempts_bounds_loop_witness :
    orchestrate shortDeadlinePolicy throttleZeroEnv 25 = none ∧
    (isDeadlineOutcome (RetryOutcome.failedDeadline "gh: API rate limit exceeded") = true ∧
      (50 : Nat) ≤ 60) :=
  ⟨deadline_not_attempts_bounds_loop.2 shortDeadlinePolicy 25 (by decide),
   deadline_not_attempts_bounds_loop.1 shortDeadlinePolicy slowThrottleEnv 1
     { invocations := 1, waits := [], finalElapsed := 60,
       outcome := .failedDeadline "gh: API rate limit exceeded" }
     (fun _ => rfl) rfl⟩

/-- The jitter wait computed from a valid uniform sample is strictly below
the current backoff. -/
theorem jitterWait_lt (u : RandSample) (cb : Nat) (hu : u.num < u.den) (hcb : 0 < cb) :
    jitterWait u cb < cb := by
  have hden : 0 < u.den := Nat.lt_of_le_of_lt (Nat.zero_le _) hu
  unfold jitterWait
  rw [Nat.div_lt_iff_lt_mul hden]
  calc u.num * cb < u.den * cb := (Nat.mul_lt_mul_right hcb).mpr hu
  _ = cb * u.den := Nat.mul_comm _ _

/-- Every wait recorded by the orchestrator loop is strictly below the
currentBackoff value that produced it, provided the policy is well formed,
every jitter sample is valid, the running backoff is positive and the
accumulator already satisfies the bound. -/
theorem orchestrateAux_waits_bounded (p : RetryPolicy) (env : RetryEnv)
    (hp : p.WellFormed) (hrand : ∀ n, (env.rand n).num < (env.rand n).den) :
    ∀ (fuel n elapsed cb : Nat) (waits : List (Nat × Nat)) (tr : RetryTrace),
      0 < cb →
      (∀ wc ∈ waits, wc.1 < wc.2) →
      orchestrateAux p env fuel n elapsed cb waits = some tr →
      ∀ wc ∈ tr.waits, wc.1 < wc.2 := by
  intro fuel
  induction fuel with
  | zero =>
    intro n elapsed cb waits tr _ _ h
    exact absurd h (by simp [orchestrateAux])
  | succ fuel ih =>
    intro n elapsed cb waits tr hcb hacc h
    rw [orchestrateAux_succ] at h
    cases hc : classify (env.attemptOutcome n) with
    | success out err =>
      rw [hc] at h
      simp only at h
      cases h
      intro wc hwc
      exact hacc wc (List.mem_reverse.mp hwc)
    | fatal m =>
      rw [hc] at h
      simp only at h
      cases h
      intro wc hwc
      exact hacc wc (List.mem_reverse.mp hwc)
    | retryable m =>
      rw [hc] at h
      simp only at h
      by_cases hd : elapsed + env.attemptDur n < p.deadline
      · rw [if_pos hd] at h
        have hcb2 : 0 < min (cb * p.backoffFactor) p.maxBackoff := by
          refine lt_min ?_ ?_
          · exact Nat.mul_pos hcb (Nat.lt_of_lt_of_le Nat.zero_lt_one hp.2.1)
          · exact Nat.lt_of_lt_of_le hp.1 hp.2.2.1
        refine ih _ _ _ _ _ hcb2 ?_ h
        intro wc hwc
        rcases List.mem_cons.mp hwc with hhd | htl
        · rw [hhd]
          exact jitterWait_lt _ _ (hrand n) hcb
        · exact hacc wc htl
      · rw [if_neg hd] at h
        cases h
        intro wc hwc
        exact hacc wc (List.mem_reverse.mp hwc)

/-- C3: every backoff wait the modelled orchestrator inserts is the jitter
value computed from a uniform sample of the half-open unit interval and
the current backoff, and is therefore strictly below the current backoff
value in every round — for every well-formed policy, every valid sample
sequence and every terminating run. -/
theorem jittered_wait_below_backoff (p : RetryPolicy) (env : RetryEnv) (fuel : Nat)
    (tr : RetryTrace) (hp : p.WellFormed)
    (hrand : ∀ n, (env.rand n).num < (env.rand n).den)
    (h : orchestrate p env fuel = some tr) :
    tr.waits.all (fun wc => decide (wc.1 < wc.2)) = true := by
  simp only [List.all_eq_true, decide_eq_true_eq]
  exact orchestrateAux_waits_bounded p env hp hrand fuel 0 0 p.initialBackoff [] tr hp.1
    (by simp) h

/-- Witness for the jitter-bound theorem: a run that performs one backoff
round with sample one third of the initial backoff 100 waits 33 ms. -/
theorem jittered_wait_below_backoff_witness :
    ([((33 : Nat), (100 : Nat))] : List (Nat × Nat)).all
      (fun wc => decide (wc.1 < wc.2)) = true :=
  jittered_wait_below_backoff jitterPolicy slowThrottleEnv 2
    { invocations := 2, waits := [(33, 100)], finalElapsed := 153,
      outcome := .failedDeadline "gh: API rate limit exceeded" }
    ⟨by decide, by decide, by decide, by decide⟩ (fun _ => (by decide : (1 : Nat) < 3)) rfl

/-- C10: updateSecrets performs no storeSecret or removeSecret call when
any of its validations fails or when consent is refused — a non-object
secret, neither allKeys nor keys supplied, truthy allKeys together with a
non-empty key list, an empty effective key list, a requested key absent
from the fetched secret, or an enabled confirmation prompt answered no: in
each of these cases the function ends in an error or returns with an empty
action list. -/
theorem no_mutation_without_validation (o : UpdateOptions) (env : UpdateEnv)
    (h : (∃ t, env.secret.json = .nonObject t) ∨
         (o.allKeys = none ∧ o.keys = none) ∨
         (jsTruthy o.allKeys = true ∧ o.keys.getD [] ≠ []) ∨
         (∀ entries, env.secret.json = .obj entries → effectiveKeys o entries = []) ∨
         (∃ entries k, env.secret.json = .obj entries ∧ k ∈ effectiveKeys o entries ∧
            hasKey entries k = false) ∨
         (o.confirm.getD true = true ∧ env.confirmAnswer = false)) :
    noMutation (updateSecrets o env) = true := by
  rcases h with ⟨t, hj⟩ | ⟨ha, hk⟩ | ⟨ha, hk⟩ | hek | ⟨entries, k, hj, hkmem, hkmiss⟩ |
    ⟨hc, hans⟩
  · simp [updateSecrets, hj, noMutation]
  · cases hj : env.secret.json with
    | nonObject t => simp [updateSecrets, hj, noMutation]
    | obj entries => simp [updateSecrets, hj, ha, hk, noMutation]
  · obtain ⟨l, hl⟩ : ∃ l, o.keys = some l := by
      cases hkk : o.keys with
      | none => rw [hkk] at hk; simp at hk
      | some l => exact ⟨l, rfl⟩
    have hlen : 0 < l.length := by
      rw [hl] at hk
      simp only [Option.getD_some] at hk
      exact List.length_pos.mpr hk
    cases hj : env.secret.json with
    | nonObject t => simp [updateSecrets, hj, noMutation]
    | obj entries => simp [updateSecrets, hj, hl, ha, hlen, noMutation]
  · cases hj : env.secret.json with
    | nonObject t => simp [updateSecrets, hj, noMutation]
    | obj entries =>
      have he := hek entries hj
      simp only [updateSecrets, hj]
      split
      · rfl
      · split
        · rfl
        · simp [he, noMutation]
  · have hfind : (effectiveKeys o entries).find? (fun x => !hasKey entries x) ≠ none := by
      rw [Ne, List.find?_eq_none]
      intro hnone
      have hx := hnone k hkmem
      rw [hkmiss] at hx
      simp at hx
    simp only [updateSecrets, hj]
    split
    · rfl
    · split
      · rfl
      · cases hf : (effectiveKeys o entries).find? (fun x => !hasKey entries x) with
        | none => exact absurd hf hfind
        | some m =>
          split
          · rfl
          · simp [hf, noMutation]
  · cases hj : env.secret.json with
    | nonObject t => simp [updateSecrets, hj, noMutation]
    | obj entries =>
      simp only [updateSecrets, hj]
      split
      · rfl
      · split
        · rfl
        · split
          · rfl
          · cases hf : (effectiveKeys o entries).find? (fun x => !hasKey entries x) with
            | some m => simp [hf, noMutation]
            | none => simp [hf, hc, hans, noMutation]

/-- Witness for the no-mutation theorem: asking for a key the secret does
not contain mutates nothing. -/
theorem no_mutation_without_validation_witness :
    noMutation (updateSecrets missingKeyOptions sampleUpdateEnv) = true :=
  no_mutation_without_validation missingKeyOptions sampleUpdateEnv
    (Or.inr (Or.inr (Or.inr (Or.inr (Or.inl
      ⟨[("NPM_TOKEN", "my-npm-token")], "NOT_FOUND", rfl, by decide, rfl⟩)))))
